import Mathlib

/-!
# Verification of `flight_parser.py`

A shallow embedding of the flight-schedule parser and query tool, together
with theorems settling the specification claims about it.

Conventions of the embedding:
* Python strings are Lean `String`s; character-level work happens on `String.data`
  (a `List Char`).  Character classes (`isdigit`, whitespace, letters) are modelled
  over ASCII, which covers every input the program's grammar accepts or that the
  claims exercise.
* Python `float` values are modelled exactly: finite values as rationals, plus
  the special values `inf`, `-inf` and `nan` with IEEE comparison behaviour.
  IEEE rounding/overflow of decimal literals is abstracted (values are kept
  exact); no claim depends on rounding.
* Fallible Python code (functions catching exceptions) returns `Option`;
  code that can raise an uncaught exception returns `Except String`.
-/

/-! ## Character helpers (ASCII models of the Python predicates) -/

/-- ASCII decimal digit, the model of `\d` in `strptime`'s regexes and of
`str.isdigit` on the inputs at hand. -/
def pyIsDigit (c : Char) : Bool := 48 ≤ c.toNat && c.toNat ≤ 57

/-- Numeric value of a digit character. -/
def digitVal (c : Char) : Nat := c.toNat - 48

/-- ASCII whitespace, the model of Python's `str.strip` default set and of
the regex class `\s` (' ', '\t', '\n', '\r', '\x0b', '\x0c'). -/
def pyIsSpace (c : Char) : Bool :=
  c.toNat = 32 || (9 ≤ c.toNat && c.toNat ≤ 13)

/-- ASCII letter. -/
def pyIsAlphaChar (c : Char) : Bool :=
  (65 ≤ c.toNat && c.toNat ≤ 90) || (97 ≤ c.toNat && c.toNat ≤ 122)

/-- ASCII uppercase letter. -/
def pyIsUpperChar (c : Char) : Bool := 65 ≤ c.toNat && c.toNat ≤ 90

/-- Model of Python `str.strip()` (drop leading and trailing whitespace). -/
def pyStrip (l : List Char) : List Char :=
  ((l.dropWhile pyIsSpace).reverse.dropWhile pyIsSpace).reverse

/-- `str.strip()` packaged on `String`. -/
def pyStripS (s : String) : String := ⟨pyStrip s.data⟩

/-! ## Field validators (`is_valid_flight_id`, `is_valid_airport_code`) -/

/-- Model of `value.isalnum()`: non-empty and every character alphanumeric. -/
def pyIsAlnum (l : List Char) : Bool :=
  !l.isEmpty && l.all (fun c => pyIsDigit c || pyIsAlphaChar c)

/-- Model of `value.isalpha()`: non-empty and every character a letter. -/
def pyIsAlpha (l : List Char) : Bool := !l.isEmpty && l.all pyIsAlphaChar

/-- Model of `value.isupper()`: at least one cased character and no lowercase
cased character (over ASCII, cased = letter). -/
def pyIsUpper (l : List Char) : Bool :=
  l.any pyIsAlphaChar && l.all (fun c => !pyIsAlphaChar c || pyIsUpperChar c)

/-- `is_valid_flight_id`: `value.isalnum() and 2 <= len(value) <= 8`. -/
def is_valid_flight_id (s : String) : Bool :=
  pyIsAlnum s.data && 2 ≤ s.data.length && s.data.length ≤ 8

/-- `is_valid_airport_code`: `len(value) == 3 and value.isalpha() and value.isupper()`. -/
def is_valid_airport_code (s : String) : Bool :=
  s.data.length = 3 && pyIsAlpha s.data && pyIsUpper s.data

/-! ## `parse_datetime` — model of `datetime.strptime(value, "%Y-%m-%d %H:%M")`

CPython compiles the format to the anchored regex
`(?P<Y>\d\d\d\d)-(?P<m>1[0-2]|0[1-9]|[1-9])-(?P<d>3[01]|[12]\d|0[1-9]|[1-9])\s+(?P<H>2[0-3]|[0-1]\d|\d):(?P<M>[0-5]\d|\d)`
(literal whitespace in the format becomes `\s+`), requires the match to
consume the whole input, then constructs `datetime(Y, m, d, H, M)`, which
additionally demands `1 <= Y` and a day valid for the month.  `ValueError`
from either step is caught by `parse_datetime`, giving `None`.

Each two-digit alternative set is exactly "two digits whose value lies in the
field's range" and each one-digit alternative "one digit in range", and since
every field is followed by a non-digit anchor (`-`, whitespace, `:` or end of
input), the regex's backtracking never changes the outcome of the greedy
two-digits-first strategy used below. -/

structure DateTime where
  year : Nat
  month : Nat
  day : Nat
  hour : Nat
  minute : Nat
deriving DecidableEq

/-- Exactly four digits (the `%Y` pattern `\d\d\d\d`). -/
def parse4 : List Char → Option (Nat × List Char)
  | a :: b :: c :: d :: r =>
    if pyIsDigit a ∧ pyIsDigit b ∧ pyIsDigit c ∧ pyIsDigit d then
      some (1000 * digitVal a + 100 * digitVal b + 10 * digitVal c + digitVal d, r)
    else none
  | _ => none

/-- One digit with value at least `lo1` (the one-digit regex alternative). -/
def parse1 (lo1 : Nat) : List Char → Option (Nat × List Char)
  | c :: r => if pyIsDigit c ∧ lo1 ≤ digitVal c then some (digitVal c, r) else none
  | [] => none

/-- Two digits whose value lies in `[lo, hi]`, else one digit of value
at least `lo1` (the two-digit-first alternatives of `%m`, `%d`, `%H`, `%M`). -/
def parse2or1 (lo hi lo1 : Nat) (l : List Char) : Option (Nat × List Char) :=
  match l with
  | c1 :: c2 :: r =>
    if pyIsDigit c1 ∧ pyIsDigit c2 ∧ lo ≤ 10 * digitVal c1 + digitVal c2 ∧
        10 * digitVal c1 + digitVal c2 ≤ hi then
      some (10 * digitVal c1 + digitVal c2, r)
    else parse1 lo1 l
  | _ => parse1 lo1 l

/-- A fixed literal character. -/
def parseLit (ch : Char) : List Char → Option (List Char)
  | c :: r => if c = ch then some r else none
  | [] => none

/-- One or more whitespace characters (`\s+`, from the literal space in the format). -/
def parseWs1 : List Char → Option (List Char)
  | c :: r => if pyIsSpace c then some (r.dropWhile pyIsSpace) else none
  | [] => none

/-- Gregorian leap year, as `datetime` uses. -/
def isLeap (y : Nat) : Bool := y % 4 = 0 && (y % 100 ≠ 0 || y % 400 = 0)

/-- Days in a month, as `datetime` validates the day against. -/
def daysInMonth (y m : Nat) : Nat :=
  if m = 2 then (if isLeap y then 29 else 28)
  else if m = 4 ∨ m = 6 ∨ m = 9 ∨ m = 11 then 30
  else 31

/-- `parse_datetime`: `strptime` with format `%Y-%m-%d %H:%M`, `None` on failure. -/
def parse_datetime (s : String) : Option DateTime :=
  (parse4 s.data).bind fun (y, r1) =>
  (parseLit '-' r1).bind fun r2 =>
  (parse2or1 1 12 1 r2).bind fun (m, r3) =>
  (parseLit '-' r3).bind fun r4 =>
  (parse2or1 1 31 1 r4).bind fun (d, r5) =>
  (parseWs1 r5).bind fun r6 =>
  (parse2or1 0 23 0 r6).bind fun (h, r7) =>
  (parseLit ':' r7).bind fun r8 =>
  (parse2or1 0 59 0 r8).bind fun (mi, r9) =>
  if r9 = [] ∧ 1 ≤ y ∧ d ≤ daysInMonth y m then some ⟨y, m, d, h, mi⟩ else none

/-- Lexicographic strict order on instants, as `datetime.__lt__` compares. -/
def dtLt (a b : DateTime) : Bool :=
  a.year < b.year || (a.year = b.year &&
    (a.month < b.month || (a.month = b.month &&
      (a.day < b.day || (a.day = b.day &&
        (a.hour < b.hour || (a.hour = b.hour && a.minute < b.minute)))))))

/-- Lexicographic order-or-equal on instants (`datetime.__le__`). -/
def dtLe (a b : DateTime) : Bool := dtLt a b || a = b

/-! ## Python floats and `parse_price` — model of `float(value)` -/

/-- A Python `float` value: an exact finite value, or a special value. -/
inductive PyFloat where
  | finite (q : ℚ)
  | inf
  | ninf
  | nan
deriving DecidableEq

/-- IEEE `<` on floats: `nan` compares false against everything. -/
def pyLt : PyFloat → PyFloat → Bool
  | .finite a, .finite b => a < b
  | .finite _, .inf => true
  | .ninf, .finite _ => true
  | .ninf, .inf => true
  | _, _ => false

/-- IEEE `==` on floats: `nan == nan` is false. -/
def pyEq : PyFloat → PyFloat → Bool
  | .finite a, .finite b => a = b
  | .inf, .inf => true
  | .ninf, .ninf => true
  | _, _ => false

/-- IEEE `>` on floats. -/
def pyGt (a b : PyFloat) : Bool := pyLt b a

/-- IEEE `<=` on floats: `nan <= x` is always false. -/
def pyLe (a b : PyFloat) : Bool := pyLt a b || pyEq a b

/-- Every PEP-515 underscore must sit directly between two digits. -/
def usOK : List Char → Bool
  | c :: '_' :: c2 :: r =>
    if pyIsDigit c ∧ pyIsDigit c2 then usOK (c2 :: r) else false
  | c :: r => if c = '_' then false else usOK r
  | [] => true

/-- Case-insensitive comparison of a character against a lowercase letter. -/
def chEqCI (a b : Char) : Bool :=
  a = b || (65 ≤ a.toNat && a.toNat ≤ 90 && a.toNat + 32 = b.toNat)

/-- Case-insensitive equality with a (lowercase) literal, consuming everything. -/
def ciEq : List Char → List Char → Bool
  | [], [] => true
  | a :: as, b :: bs => chEqCI a b && ciEq as bs
  | _, _ => false

/-- Value of a digit string, most significant first. -/
def digitsToNat (l : List Char) : Nat := l.foldl (fun a c => 10 * a + digitVal c) 0

/-- Exact value of a parsed decimal: optional sign, integer digits, fraction
digits, and a base-10 exponent (IEEE rounding abstracted away). -/
def mkFinite (neg : Bool) (ip fp : List Char) (e : Int) : PyFloat :=
  let m : Int := digitsToNat (ip ++ fp)
  let ex : Int := e - fp.length
  let q : ℚ := if 0 ≤ ex then ((m * 10 ^ ex.toNat : Int) : ℚ) else mkRat m (10 ^ (-ex).toNat)
  .finite (if neg then -q else q)

/-- Split an optional leading sign off a character list: `(negative, rest)`. -/
def splitSign (l : List Char) : Bool × List Char :=
  match l with
  | c :: r => if c = '-' then (true, r) else if c = '+' then (false, r) else (false, l)
  | [] => (false, l)

/-- Split a leading `.` off a character list, giving the tail when present. -/
def splitDot : List Char → Option (List Char)
  | c :: r => if c = '.' then some r else none
  | [] => none

/-- Grammar of `float(str)` after whitespace stripping and underscore removal:
optional sign; `inf`/`infinity`/`nan` case-insensitively; or digits with an
optional fraction part and an optional exponent, at least one digit among
integer and fraction parts, nothing left over. -/
def pfloatCore (l : List Char) : Option PyFloat :=
  let neg := (splitSign l).1
  let l1 := (splitSign l).2
  if ciEq l1 "inf".data || ciEq l1 "infinity".data then
    some (if neg then .ninf else .inf)
  else if ciEq l1 "nan".data then some .nan
  else
    let ip := l1.takeWhile pyIsDigit
    let r1 := l1.dropWhile pyIsDigit
    let fr := match splitDot r1 with
      | some rest => (rest.takeWhile pyIsDigit, rest.dropWhile pyIsDigit)
      | none => ([], r1)
    let fp := fr.1
    let r2 := fr.2
    if ip = [] ∧ fp = [] then none
    else
      match r2 with
      | [] => some (mkFinite neg ip fp 0)
      | e :: r3 =>
        if e = 'e' ∨ e = 'E' then
          let esgn := (splitSign r3).1
          let erest := (splitSign r3).2
          let ed := erest.takeWhile pyIsDigit
          if ed = [] ∨ erest.dropWhile pyIsDigit ≠ [] then none
          else
            some (mkFinite neg ip fp
              (if esgn then -(digitsToNat ed : Int) else (digitsToNat ed : Int)))
        else none

/-- `float(value)`: strip whitespace, validate/remove PEP-515 underscores,
then parse per `pfloatCore`. -/
def pfloat (s : String) : Option PyFloat :=
  let l := pyStrip s.data
  if l.contains '_' then
    if usOK l then pfloatCore (l.filter (fun c => c ≠ '_')) else none
  else pfloatCore l

/-- `parse_price`: `float(value)` with `ValueError` mapped to `None`. -/
def parse_price (s : String) : Option PyFloat := pfloat s

/-! ## Row validation (`validate_row`) -/

/-- A validated flight record, with the exact fields `validate_row` constructs. -/
structure Flight where
  flight_id : String
  origin : String
  destination : String
  departure_datetime : String
  arrival_datetime : String
  price : PyFloat
deriving DecidableEq

/-- The `(is_valid, flight_dict_or_None, error_message_if_invalid)` triple
returned by `validate_row`. -/
structure RowResult where
  isValid : Bool
  flight : Option Flight
  error : String
deriving DecidableEq

/-- Reasons recorded for the flight-id field (lines 72-78 of the source). -/
def idReasons (fid : String) : List String :=
  if fid = "" then ["missing flight_id field"]
  else if is_valid_flight_id fid then []
  else if 8 < fid.data.length then ["flight_id too long (more than 8 characters)"]
  else ["invalid flight_id format"]

/-- Reasons recorded for the origin field (lines 81-84). -/
def originReasons (o : String) : List String :=
  if o = "" then ["missing origin field"]
  else if is_valid_airport_code o then [] else ["invalid origin code"]

/-- Reasons recorded for the destination field (lines 87-90). -/
def destReasons (d : String) : List String :=
  if d = "" then ["missing destination field"]
  else if is_valid_airport_code d then [] else ["invalid destination code"]

/-- Reasons recorded for the two timestamps (lines 96-102): a single combined
reason when both fail to parse, otherwise one reason per failing side. -/
def dateReasons : Option DateTime → Option DateTime → List String
  | none, none => ["invalid date format"]
  | none, some _ => ["invalid departure datetime"]
  | some _, none => ["invalid arrival datetime"]
  | some _, some _ => []

/-- Chronology reason (lines 105-107), evaluated only when both parsed. -/
def chronoReasons : Option DateTime → Option DateTime → List String
  | some dep, some arr => if dtLe arr dep then ["arrival before departure"] else []
  | _, _ => []

/-- Price reasons (lines 110-117). -/
def priceReasons : Option PyFloat → List String
  | none => ["invalid price value"]
  | some p =>
    if pyLt p (.finite 0) then ["negative price value"]
    else if pyEq p (.finite 0) then ["price must be positive"]
    else []

/-- All reasons a 6-field row accumulates, in the source's evaluation order. -/
def rowReasons (fid o de dstr astr pstr : String) : List String :=
  idReasons fid ++ originReasons o ++ destReasons de ++
  dateReasons (parse_datetime dstr) (parse_datetime astr) ++
  chronoReasons (parse_datetime dstr) (parse_datetime astr) ++
  priceReasons (parse_price pstr)

/-- The diagnostic line `f"Line {line_no}: {original_line} → {', '.join(reasons)}"`. -/
def diagLine (line_no : Nat) (original_line : String) (reasons : List String) : String :=
  "Line " ++ toString line_no ++ ": " ++ original_line ++ " → " ++
    String.intercalate ", " reasons

/-- `validate_row`: reject non-6-field rows outright; otherwise strip every
field, accumulate all reasons, and either report the diagnostic or construct
the flight record with the stripped timestamp strings and the parsed price. -/
def validate_row (fields : List String) (line_no : Nat) (original_line : String) :
    RowResult :=
  match fields with
  | [f1, f2, f3, f4, f5, f6] =>
    let fid := pyStripS f1
    let o := pyStripS f2
    let de := pyStripS f3
    let dstr := pyStripS f4
    let astr := pyStripS f5
    let pstr := pyStripS f6
    match parse_price pstr with
    | some p =>
      let reasons := rowReasons fid o de dstr astr pstr
      if reasons = [] then ⟨true, some ⟨fid, o, de, dstr, astr, p⟩, ""⟩
      else ⟨false, none, diagLine line_no original_line reasons⟩
    | none =>
      -- price is None, so `priceReasons` is non-empty and the row is invalid
      ⟨false, none, diagLine line_no original_line (rowReasons fid o de dstr astr pstr)⟩
  | _ => ⟨false, none, diagLine line_no original_line ["missing required fields"]⟩

/-! ## Query matching (`flight_matches_query`) -/

/-- A JSON query value: the program meets strings and integers here. -/
inductive QVal where
  | vstr (s : String)
  | vint (n : Int)
deriving DecidableEq

/-- A query object: an association of keys to values (keys unique). -/
abbrev Query := List (String × QVal)

/-- Python `str()` of a query value. -/
def qvalStr : QVal → String
  | .vstr s => s
  | .vint n => toString n

/-- Python `float()` of a query value (`TypeError`/`ValueError` as `none`). -/
def qvalFloat : QVal → Option PyFloat
  | .vstr s => parse_price s
  | .vint n => some (.finite (n : ℚ))

/-- The exact-match loop over `flight_id`, `origin`, `destination`
(lines 235-238): true when some present key's string form differs. -/
def exactMismatch (f : Flight) (q : Query) : Bool :=
  (match q.lookup "flight_id" with
   | some v => qvalStr v ≠ f.flight_id
   | none => false) ||
  (match q.lookup "origin" with
   | some v => qvalStr v ≠ f.origin
   | none => false) ||
  (match q.lookup "destination" with
   | some v => qvalStr v ≠ f.destination
   | none => false)

/-- The `departure_datetime` filter (lines 241-247).  `strptime` raises an
uncaught `TypeError` when the query value is not a string; `parse_datetime`
only catches `ValueError`. -/
def depCheck (f : Flight) (q : Query) : Except String Bool :=
  match q.lookup "departure_datetime" with
  | none => .ok true
  | some (.vint _) => .error "TypeError"
  | some (.vstr s) =>
    match parse_datetime s with
    | none => .ok false
    | some qd =>
      match parse_datetime f.departure_datetime with
      | none => .ok false
      | some fd => .ok (!dtLt fd qd)

/-- The `arrival_datetime` filter (lines 249-255), mirror of `depCheck`. -/
def arrCheck (f : Flight) (q : Query) : Except String Bool :=
  match q.lookup "arrival_datetime" with
  | none => .ok true
  | some (.vint _) => .error "TypeError"
  | some (.vstr s) =>
    match parse_datetime s with
    | none => .ok false
    | some qa =>
      match parse_datetime f.arrival_datetime with
      | none => .ok false
      | some fa => .ok (!dtLt qa fa)

/-- The price filter (lines 258-264): `TypeError`/`ValueError` from
`float(query["price"])` are both caught, then `float(flight["price"]) > q_price`
fails the match. -/
def priceCheck (f : Flight) (q : Query) : Bool :=
  match q.lookup "price" with
  | none => true
  | some v =>
    match qvalFloat v with
    | none => false
    | some qp => !pyGt f.price qp

/-- `flight_matches_query`: the three filter groups in source order, with the
early `return False` of each stage cutting off the later ones. -/
def flight_matches_query (f : Flight) (q : Query) : Except String Bool :=
  if exactMismatch f q then .ok false
  else
    match depCheck f q with
    | .error e => .error e
    | .ok false => .ok false
    | .ok true =>
      match arrCheck f q with
      | .error e => .error e
      | .ok false => .ok false
      | .ok true => .ok (priceCheck f q)

/-! ## JSON database store (`save_db_json` / `load_db_json`) and query runner

The file boundary is abstracted at the JSON-value level: `json.dump` followed
by `json.load` is value-faithful on everything the program writes, so `save`
produces the JSON value written to disk and `load` consumes the JSON value
read back. -/

/-- A JSON value as Python's `json` module produces it (numbers split into the
float form the program stores; `NaN`/`Infinity` literals are carried by
`PyFloat` itself). -/
inductive JsonValue where
  | jstr (s : String)
  | jnum (v : PyFloat)
  | jbool (b : Bool)
  | jnull
  | jarr (elems : List JsonValue)
  | jobj (fields : List (String × JsonValue))

/-- Serialization of one flight dict, keys in construction order. -/
def flightToJson (f : Flight) : JsonValue :=
  .jobj [("flight_id", .jstr f.flight_id),
         ("origin", .jstr f.origin),
         ("destination", .jstr f.destination),
         ("departure_datetime", .jstr f.departure_datetime),
         ("arrival_datetime", .jstr f.arrival_datetime),
         ("price", .jnum f.price)]

/-- Reading a flight back out of a JSON object, field for field. -/
def flightFromJson (j : JsonValue) : Option Flight :=
  match j with
  | .jobj fs =>
    match fs.lookup "flight_id", fs.lookup "origin", fs.lookup "destination",
        fs.lookup "departure_datetime", fs.lookup "arrival_datetime",
        fs.lookup "price" with
    | some (.jstr a), some (.jstr b), some (.jstr c), some (.jstr d),
        some (.jstr e), some (.jnum p) => some ⟨a, b, c, d, e, p⟩
    | _, _, _, _, _, _ => none
  | _ => none

/-- `save_db_json`: `json.dump(flights, f, ...)` — the value written is the
list of flight objects. -/
def save_db_json (flights : List Flight) : JsonValue :=
  .jarr (flights.map flightToJson)

/-- `load_db_json`: `json.load` then the top-level shape check
`isinstance(data, list)`; a non-list raises `ValueError`. -/
def load_db_json (j : JsonValue) : Except String (List JsonValue) :=
  match j with
  | .jarr elems => .ok elems
  | _ => .error "JSON database must be a list of flight objects"

/-- Equality of matcher outcomes is decidable (used to evaluate concrete runs). -/
instance {ε α : Type} [DecidableEq ε] [DecidableEq α] : DecidableEq (Except ε α)
  | .error a, .error b =>
    if h : a = b then .isTrue (by rw [h]) else .isFalse (by simp [h])
  | .error _, .ok _ => .isFalse (by simp)
  | .ok _, .error _ => .isFalse (by simp)
  | .ok a, .ok b =>
    if h : a = b then .isTrue (by rw [h]) else .isFalse (by simp [h])

/-- One entry of the query response list; `matchList` carries the source's
`"matches"` key (`matches` is reserved in Lean). -/
structure QueryResponse where
  query : Query
  matchList : List Flight
deriving DecidableEq

/-- The list comprehension `[flight for flight in flights if
flight_matches_query(flight, q)]`: an exception from the matcher propagates. -/
def filterMatches (q : Query) : List Flight → Except String (List Flight)
  | [] => .ok []
  | f :: fs =>
    match flight_matches_query f q with
    | .error e => .error e
    | .ok b =>
      match filterMatches q fs with
      | .error e => .error e
      | .ok r => .ok (if b then f :: r else r)

/-- `run_queries_on_db`: one response per query, in query order. -/
def run_queries_on_db (flights : List Flight) :
    List Query → Except String (List QueryResponse)
  | [] => .ok []
  | q :: qs =>
    match filterMatches q flights with
    | .error e => .error e
    | .ok ms =>
      match run_queries_on_db flights qs with
      | .error e => .error e
      | .ok rs => .ok (⟨q, ms⟩ :: rs)

/-! ## Helper lemmas -/

/-- `datetime` comparisons are a total order: `a <= b` is the negation of `b < a`. -/
theorem dtLe_eq_not_dtLt (a b : DateTime) : dtLe a b = !dtLt b a := by
  rcases a with ⟨y1, m1, d1, h1, n1⟩
  rcases b with ⟨y2, m2, d2, h2, n2⟩
  rw [Bool.eq_iff_iff]
  simp [dtLe, dtLt, DateTime.mk.injEq]
  omega

/-- The flight-id check records no reason exactly when the id is valid. -/
theorem idReasons_eq_nil (s : String) :
    idReasons s = [] ↔ is_valid_flight_id s = true := by
  unfold idReasons
  split_ifs with h1 h2 h3
  · subst h1; decide
  · simp [h2]
  · simp [h2]
  · simp [h2]

/-- The origin check records no reason exactly when the code is valid. -/
theorem originReasons_eq_nil (s : String) :
    originReasons s = [] ↔ is_valid_airport_code s = true := by
  unfold originReasons
  split_ifs with h1 h2
  · subst h1; decide
  · simp [h2]
  · simp [h2]

/-- The destination check records no reason exactly when the code is valid. -/
theorem destReasons_eq_nil (s : String) :
    destReasons s = [] ↔ is_valid_airport_code s = true := by
  unfold destReasons
  split_ifs with h1 h2
  · subst h1; decide
  · simp [h2]
  · simp [h2]

/-- The timestamp checks record no reason exactly when both sides parsed. -/
theorem dateReasons_eq_nil (x y : Option DateTime) :
    dateReasons x y = [] ↔ x.isSome = true ∧ y.isSome = true := by
  cases x <;> cases y <;> simp [dateReasons]

/-- Timestamp and chronology checks together record no reason exactly when
both sides parse and arrival is strictly after departure. -/
theorem date_chrono_eq_nil (x y : Option DateTime) :
    (dateReasons x y = [] ∧ chronoReasons x y = []) ↔
      ∃ dep arr, x = some dep ∧ y = some arr ∧ dtLt dep arr = true := by
  cases x with
  | none => cases y <;> simp [dateReasons, chronoReasons]
  | some a =>
    cases y with
    | none => simp [dateReasons, chronoReasons]
    | some b =>
      simp only [dateReasons, chronoReasons, dtLe_eq_not_dtLt]
      cases hlt : dtLt a b <;> simp [hlt]

/-- The price checks on a parsed price record no reason exactly when the
price is neither below zero nor equal to zero. -/
theorem priceReasons_some_eq_nil (p : PyFloat) :
    priceReasons (some p) = [] ↔
      pyLt p (.finite 0) = false ∧ pyEq p (.finite 0) = false := by
  have hp : priceReasons (some p) =
      if pyLt p (.finite 0) = true then ["negative price value"]
      else if pyEq p (.finite 0) = true then ["price must be positive"]
      else [] := rfl
  rw [hp]
  split_ifs with h1 h2 <;> simp_all

/-! ## Claim theorems -/

/-- C5: a row whose field count is not 6 is rejected immediately with the
single reason "missing required fields", no flight record, and no further
field-level detail. -/
theorem validate_row_wrong_field_count (fields : List String) (line_no : Nat)
    (original_line : String) (h : fields.length ≠ 6) :
    validate_row fields line_no original_line =
      ⟨false, none, "Line " ++ toString line_no ++ ": " ++ original_line ++
        " → " ++ "missing required fields"⟩ := by
  rcases fields with _ | ⟨a, _ | ⟨b, _ | ⟨c, _ | ⟨d, _ | ⟨e, _ | ⟨f, _ | ⟨g, rest⟩⟩⟩⟩⟩⟩⟩
  · rfl
  · rfl
  · rfl
  · rfl
  · rfl
  · rfl
  · exact absurd rfl h
  · rfl

/-- Witness for C5 at a concrete 5-field row. -/
theorem validate_row_wrong_field_count_witness :
    validate_row ["a", "b", "c", "d", "e"] 7 "raw" =
      ⟨false, none, "Line " ++ toString 7 ++ ": " ++ "raw" ++
        " → " ++ "missing required fields"⟩ :=
  validate_row_wrong_field_count ["a", "b", "c", "d", "e"] 7 "raw" (by decide)

/-- C9: loading the database succeeds (returning the elements unchanged,
whatever their shape) exactly when the top level is a list, and fails with
the format error otherwise. -/
theorem load_db_json_top_level_shape (j : JsonValue) :
    (∃ elems, j = .jarr elems ∧ load_db_json j = .ok elems) ∨
    ((∀ elems, j ≠ .jarr elems) ∧
      load_db_json j = .error "JSON database must be a list of flight objects") := by
  cases j <;> simp [load_db_json]

/-- C4: saving a record list and loading it back yields the same records,
field for field and in order. -/
theorem save_load_round_trip (flights : List Flight) :
    load_db_json (save_db_json flights) = .ok (flights.map flightToJson) ∧
    (flights.map flightToJson).map flightFromJson = flights.map some := by
  refine ⟨rfl, ?_⟩
  induction flights with
  | nil => rfl
  | cons f fs ih => simp only [List.map_cons, ih]; rfl

/-- C10: every record `validate_row` constructs stores timestamp strings that
re-parse successfully, so the matcher's record-side parse-failure branches
cannot fire on pipeline-produced records. -/
theorem validated_row_timestamps_reparse (fields : List String) (ln : Nat)
    (orig : String) (f : Flight)
    (h : (validate_row fields ln orig).flight = some f) :
    (parse_datetime f.departure_datetime).isSome = true ∧
    (parse_datetime f.arrival_datetime).isSome = true := by
  rcases fields with _ | ⟨a, _ | ⟨b, _ | ⟨c, _ | ⟨d, _ | ⟨e, _ | ⟨g, _ | ⟨x, rest⟩⟩⟩⟩⟩⟩⟩
  · simp [validate_row] at h
  · simp [validate_row] at h
  · simp [validate_row] at h
  · simp [validate_row] at h
  · simp [validate_row] at h
  · simp [validate_row] at h
  · simp only [validate_row] at h
    split at h
    next p heq =>
      split at h
      next hr =>
        simp only [rowReasons, List.append_eq_nil] at hr
        obtain ⟨⟨⟨⟨⟨-, -⟩, -⟩, h4⟩, -⟩, -⟩ := hr
        rw [dateReasons_eq_nil] at h4
        dsimp only at h
        cases h
        exact h4
      next hr => simp at h
    next heq => simp at h
  · simp [validate_row] at h

/-- Witness for C10 at a concrete fully valid row. -/
theorem validated_row_timestamps_reparse_witness :
    (parse_datetime "2024-05-01 10:00").isSome = true ∧
    (parse_datetime "2024-05-01 12:00").isSome = true :=
  validated_row_timestamps_reparse
    ["AB12", "JFK", "LAX", "2024-05-01 10:00", "2024-05-01 12:00", "100"] 1 "row"
    ⟨"AB12", "JFK", "LAX", "2024-05-01 10:00", "2024-05-01 12:00", .finite 100⟩
    (by decide)

/-- C1 counterexample: the row with price `"nan"` passes validation and a
record is constructed, yet its price is not greater than zero (`nan > 0` is
false), so "a record exists only if price > 0" fails on the code. -/
theorem nan_price_row_accepted :
    (validate_row ["AB12", "JFK", "LAX", "2024-05-01 10:00", "2024-05-01 12:00",
        "nan"] 1 "row").flight =
      some ⟨"AB12", "JFK", "LAX", "2024-05-01 10:00", "2024-05-01 12:00",
        PyFloat.nan⟩ ∧
    pyGt PyFloat.nan (PyFloat.finite 0) = false := by decide

/-- C1 (amended): a 6-field row yields a record exactly when the stripped
fields satisfy: valid flight id, two valid airport codes, both timestamps
parse, departure strictly before arrival, and the price parses with neither
`price < 0` nor `price == 0` true (which is `price > 0` for every non-NaN
price, but also admits NaN). -/
theorem validate_row_record_iff (f1 f2 f3 f4 f5 f6 : String) (ln : Nat)
    (orig : String) :
    (validate_row [f1, f2, f3, f4, f5, f6] ln orig).flight.isSome = true ↔
      (is_valid_flight_id (pyStripS f1) = true ∧
       is_valid_airport_code (pyStripS f2) = true ∧
       is_valid_airport_code (pyStripS f3) = true ∧
       ∃ dep arr p,
         parse_datetime (pyStripS f4) = some dep ∧
         parse_datetime (pyStripS f5) = some arr ∧
         dtLt dep arr = true ∧
         parse_price (pyStripS f6) = some p ∧
         pyLt p (PyFloat.finite 0) = false ∧
         pyEq p (PyFloat.finite 0) = false) := by
  have key : rowReasons (pyStripS f1) (pyStripS f2) (pyStripS f3) (pyStripS f4)
      (pyStripS f5) (pyStripS f6) = [] ↔
      (is_valid_flight_id (pyStripS f1) = true ∧
       is_valid_airport_code (pyStripS f2) = true ∧
       is_valid_airport_code (pyStripS f3) = true ∧
       ∃ dep arr p,
         parse_datetime (pyStripS f4) = some dep ∧
         parse_datetime (pyStripS f5) = some arr ∧
         dtLt dep arr = true ∧
         parse_price (pyStripS f6) = some p ∧
         pyLt p (PyFloat.finite 0) = false ∧
         pyEq p (PyFloat.finite 0) = false) := by
    simp only [rowReasons, List.append_eq_nil]
    constructor
    · rintro ⟨⟨⟨⟨⟨h1, h2⟩, h3⟩, h4⟩, h5⟩, h6⟩
      refine ⟨(idReasons_eq_nil _).mp h1, (originReasons_eq_nil _).mp h2,
        (destReasons_eq_nil _).mp h3, ?_⟩
      obtain ⟨dep, arr, hdep, harr, hlt⟩ := (date_chrono_eq_nil _ _).mp ⟨h4, h5⟩
      cases hp : parse_price (pyStripS f6) with
      | none => rw [hp] at h6; exact absurd h6 (by simp [priceReasons])
      | some p =>
        rw [hp] at h6
        obtain ⟨hlt0, heq0⟩ := (priceReasons_some_eq_nil p).mp h6
        exact ⟨dep, arr, p, hdep, harr, hlt, rfl, hlt0, heq0⟩
    · rintro ⟨h1, h2, h3, dep, arr, p, hdep, harr, hlt, hp, hlt0, heq0⟩
      have hdc := (date_chrono_eq_nil (parse_datetime (pyStripS f4))
        (parse_datetime (pyStripS f5))).mpr ⟨dep, arr, hdep, harr, hlt⟩
      refine ⟨⟨⟨⟨⟨(idReasons_eq_nil _).mpr h1, (originReasons_eq_nil _).mpr h2⟩,
        (destReasons_eq_nil _).mpr h3⟩, hdc.1⟩, hdc.2⟩, ?_⟩
      rw [hp]
      exact (priceReasons_some_eq_nil p).mpr ⟨hlt0, heq0⟩
  simp only [validate_row]
  split
  next p heq =>
    split
    next hr => simpa using key.mp hr
    next hr => simpa using fun hR => hr (key.mpr hR)
  next heq =>
    simp only [Option.isSome_none, Bool.false_eq_true, false_iff]
    rintro ⟨-, -, -, dep, arr, p, -, -, -, hp, -, -⟩
    rw [heq] at hp
    simp at hp

/-- C2: on any 6-field row with at least one recorded reason, the result is
invalid with no record and the diagnostic string `Line <n>: <original> →
<reasons>`, the reasons joined by comma-space in evaluation order: flight id,
origin, destination, timestamps, chronology, price. -/
theorem validate_row_diag_format (f1 f2 f3 f4 f5 f6 : String) (ln : Nat)
    (orig : String)
    (h : rowReasons (pyStripS f1) (pyStripS f2) (pyStripS f3) (pyStripS f4)
      (pyStripS f5) (pyStripS f6) ≠ []) :
    validate_row [f1, f2, f3, f4, f5, f6] ln orig =
      ⟨false, none,
        "Line " ++ toString ln ++ ": " ++ orig ++ " → " ++
          String.intercalate ", "
            (idReasons (pyStripS f1) ++ originReasons (pyStripS f2) ++
             destReasons (pyStripS f3) ++
             dateReasons (parse_datetime (pyStripS f4))
               (parse_datetime (pyStripS f5)) ++
             chronoReasons (parse_datetime (pyStripS f4))
               (parse_datetime (pyStripS f5)) ++
             priceReasons (parse_price (pyStripS f6)))⟩ := by
  simp only [validate_row]
  split
  next p heq => rw [if_neg h]; rfl
  next heq => rfl

/-- Witness for C2 at a row violating four different checks at once. -/
theorem validate_row_diag_format_witness :
    validate_row ["AB1!", " jfk ", "LAX", "2024-05-01 10:00",
        "2024-05-01 09:00", "0"] 3 "raw" =
      ⟨false, none,
        "Line 3: raw → invalid flight_id format, invalid origin code, " ++
          "arrival before departure, price must be positive"⟩ :=
  (validate_row_diag_format "AB1!" " jfk " "LAX" "2024-05-01 10:00"
    "2024-05-01 09:00" "0" 3 "raw" (by decide)).trans (by decide)

/-! ## Matcher lemmas and claims C3, C6 -/

/-- The matcher returns a positive match exactly when no stage cuts it off:
no exact-key mismatch, both datetime stages pass, and the price stage passes. -/
theorem matches_ok_true_split (f : Flight) (q : Query) :
    flight_matches_query f q = .ok true ↔
      (exactMismatch f q = false ∧ depCheck f q = .ok true ∧
       arrCheck f q = .ok true ∧ priceCheck f q = true) := by
  unfold flight_matches_query
  by_cases hx : exactMismatch f q = true
  · simp [hx]
  · rw [Bool.not_eq_true] at hx
    rw [if_neg (by simp [hx])]
    cases hd : depCheck f q with
    | error e => simp [hx]
    | ok b =>
      cases b
      · simp [hx]
      · cases ha : arrCheck f q with
        | error e => simp [hx]
        | ok b2 => cases b2 <;> simp [hx]

/-- A present exact-match key passes exactly when the string forms agree. -/
theorem exactMismatch_false_iff (f : Flight) (q : Query) :
    exactMismatch f q = false ↔
      ((∀ v, q.lookup "flight_id" = some v → qvalStr v = f.flight_id) ∧
       (∀ v, q.lookup "origin" = some v → qvalStr v = f.origin) ∧
       (∀ v, q.lookup "destination" = some v → qvalStr v = f.destination)) := by
  unfold exactMismatch
  cases h1 : q.lookup "flight_id" <;> cases h2 : q.lookup "origin" <;>
    cases h3 : q.lookup "destination" <;> simp [and_assoc]

/-- The departure stage passes exactly when either the key is absent, or the
query value is a string parsing to an instant not after the record's
(re-parsed) departure. -/
theorem depCheck_ok_true_iff (f : Flight) (q : Query) :
    depCheck f q = .ok true ↔
      (∀ v, q.lookup "departure_datetime" = some v →
        ∃ s qd fd, v = QVal.vstr s ∧ parse_datetime s = some qd ∧
          parse_datetime f.departure_datetime = some fd ∧ dtLe qd fd = true) := by
  unfold depCheck
  cases hv : q.lookup "departure_datetime" with
  | none => simp
  | some v =>
    cases v with
    | vint n => simp
    | vstr s =>
      cases hq : parse_datetime s with
      | none => simp [hq]
      | some qd =>
        cases hf : parse_datetime f.departure_datetime with
        | none => simp [hq, hf]
        | some fd => simp [hq, hf, dtLe_eq_not_dtLt]

/-- The arrival stage passes exactly when either the key is absent, or the
query value is a string parsing to an instant not before the record's
(re-parsed) arrival. -/
theorem arrCheck_ok_true_iff (f : Flight) (q : Query) :
    arrCheck f q = .ok true ↔
      (∀ v, q.lookup "arrival_datetime" = some v →
        ∃ s qa fa, v = QVal.vstr s ∧ parse_datetime s = some qa ∧
          parse_datetime f.arrival_datetime = some fa ∧ dtLe fa qa = true) := by
  unfold arrCheck
  cases hv : q.lookup "arrival_datetime" with
  | none => simp
  | some v =>
    cases v with
    | vint n => simp
    | vstr s =>
      cases hq : parse_datetime s with
      | none => simp [hq]
      | some qa =>
        cases hf : parse_datetime f.arrival_datetime with
        | none => simp [hq, hf]
        | some fa => simp [hq, hf, dtLe_eq_not_dtLt]

/-- The price stage passes exactly when either the key is absent, or its
value converts to a float that the record's price does not exceed. -/
theorem priceCheck_true_iff (f : Flight) (q : Query) :
    priceCheck f q = true ↔
      (∀ v, q.lookup "price" = some v →
        ∃ qp, qvalFloat v = some qp ∧ pyGt f.price qp = false) := by
  unfold priceCheck
  cases hv : q.lookup "price" with
  | none => simp
  | some v =>
    cases hp : qvalFloat v with
    | none => simp [hp]
    | some qp => simp [hp]

/-- The query-matching contract in the spec's shape (C3), with the price
comparison phrased as the code's `not (record.price > query.price)` — for
non-NaN operands exactly `record.price ≤ query.price`, but NaN on either
side passes the filter vacuously. -/
def MatchesSpec (f : Flight) (q : Query) : Prop :=
  (∀ v, q.lookup "flight_id" = some v → qvalStr v = f.flight_id) ∧
  (∀ v, q.lookup "origin" = some v → qvalStr v = f.origin) ∧
  (∀ v, q.lookup "destination" = some v → qvalStr v = f.destination) ∧
  (∀ v, q.lookup "departure_datetime" = some v →
    ∃ s qd fd, v = QVal.vstr s ∧ parse_datetime s = some qd ∧
      parse_datetime f.departure_datetime = some fd ∧ dtLe qd fd = true) ∧
  (∀ v, q.lookup "arrival_datetime" = some v →
    ∃ s qa fa, v = QVal.vstr s ∧ parse_datetime s = some qa ∧
      parse_datetime f.arrival_datetime = some fa ∧ dtLe fa qa = true) ∧
  (∀ v, q.lookup "price" = some v →
    ∃ qp, qvalFloat v = some qp ∧ pyGt f.price qp = false)

/-- A concrete valid flight record used by counterexamples. -/
def f0 : Flight :=
  ⟨"AB12", "JFK", "LAX", "2024-05-01 10:00", "2024-05-01 12:00", .finite 100⟩

/-- C3 counterexample: the query price `"nan"` parses as numeric, and the
matcher accepts the record, although the record's price is not `≤` the query
price (no float is `≤ nan`); so "record price ≤ query price" as stated fails
on the code, which implements `not (record price > query price)`. -/
theorem nan_price_query_matches_all :
    flight_matches_query f0 [("price", QVal.vstr "nan")] = .ok true ∧
    parse_price "nan" = some PyFloat.nan ∧
    pyLe f0.price PyFloat.nan = false := by decide

/-- C3 (amended): the matcher answers a positive match exactly when every
recognized key present passes its filter — exact keys compare as strings,
the departure/arrival keys must be strings parsing to bounds the record's
re-parsed instants satisfy, and a present price key must convert to a float
not exceeded by the record's price (`not >`, NaN passing vacuously).  Keys
absent impose nothing, unknown keys are ignored, and a query with no
recognized keys matches every record. -/
theorem flight_matches_query_ok_true_iff (f : Flight) (q : Query) :
    flight_matches_query f q = .ok true ↔ MatchesSpec f q := by
  rw [matches_ok_true_split, exactMismatch_false_iff, depCheck_ok_true_iff,
    arrCheck_ok_true_iff, priceCheck_true_iff]
  unfold MatchesSpec
  tauto

/-- A query on which every flight answers a negative match filters to the
empty list without error. -/
theorem filterMatches_ok_nil (q : Query)
    (hq : ∀ g, flight_matches_query g q = .ok false) (fl : List Flight) :
    filterMatches q fl = .ok [] := by
  induction fl with
  | nil => rfl
  | cons f fs ih => simp [filterMatches, hq f, ih]

/-- C6 counterexample: a non-string `departure_datetime` filter value (here
the integer 5) raises a `TypeError` out of `strptime` — only the price
filter guards against `TypeError` — so the query run aborts instead of
returning zero matches. -/
theorem int_datetime_query_raises :
    flight_matches_query f0 [("departure_datetime", QVal.vint 5)] =
      .error "TypeError" ∧
    run_queries_on_db [f0] [[("departure_datetime", QVal.vint 5)]] =
      .error "TypeError" := by decide

/-- C6 (amended): a *string* filter value that fails to parse as a timestamp
(for departure or arrival) or as a number (for price) makes the query match
no record, and the query run returns an empty match list rather than an
error; non-string datetime values, however, raise (see the counterexample). -/
theorem unparsable_string_filters_match_nothing (flights : List Flight)
    (f : Flight) (s u : String)
    (hs : parse_datetime s = none) (hu : parse_price u = none) :
    flight_matches_query f [("departure_datetime", QVal.vstr s)] = .ok false ∧
    flight_matches_query f [("arrival_datetime", QVal.vstr s)] = .ok false ∧
    flight_matches_query f [("price", QVal.vstr u)] = .ok false ∧
    run_queries_on_db flights [[("departure_datetime", QVal.vstr s)]] =
      .ok [⟨[("departure_datetime", QVal.vstr s)], []⟩] ∧
    run_queries_on_db flights [[("arrival_datetime", QVal.vstr s)]] =
      .ok [⟨[("arrival_datetime", QVal.vstr s)], []⟩] ∧
    run_queries_on_db flights [[("price", QVal.vstr u)]] =
      .ok [⟨[("price", QVal.vstr u)], []⟩] := by
  have hdep : ∀ g : Flight,
      flight_matches_query g [("departure_datetime", QVal.vstr s)] = .ok false := by
    intro g
    have hx : exactMismatch g [("departure_datetime", QVal.vstr s)] = false := rfl
    have e : depCheck g [("departure_datetime", QVal.vstr s)] =
        (match parse_datetime s with
         | none => Except.ok false
         | some qd =>
           match parse_datetime g.departure_datetime with
           | none => Except.ok false
           | some fd => Except.ok (!dtLt fd qd)) := rfl
    have hd : depCheck g [("departure_datetime", QVal.vstr s)] = .ok false := by
      rw [e, hs]
    simp [flight_matches_query, hx, hd]
  have harr : ∀ g : Flight,
      flight_matches_query g [("arrival_datetime", QVal.vstr s)] = .ok false := by
    intro g
    have hx : exactMismatch g [("arrival_datetime", QVal.vstr s)] = false := rfl
    have hdp : depCheck g [("arrival_datetime", QVal.vstr s)] = .ok true := rfl
    have e : arrCheck g [("arrival_datetime", QVal.vstr s)] =
        (match parse_datetime s with
         | none => Except.ok false
         | some qa =>
           match parse_datetime g.arrival_datetime with
           | none => Except.ok false
           | some fa => Except.ok (!dtLt qa fa)) := rfl
    have ha : arrCheck g [("arrival_datetime", QVal.vstr s)] = .ok false := by
      rw [e, hs]
    simp [flight_matches_query, hx, hdp, ha]
  have hpr : ∀ g : Flight,
      flight_matches_query g [("price", QVal.vstr u)] = .ok false := by
    intro g
    have hx : exactMismatch g [("price", QVal.vstr u)] = false := rfl
    have hdp : depCheck g [("price", QVal.vstr u)] = .ok true := rfl
    have hap : arrCheck g [("price", QVal.vstr u)] = .ok true := rfl
    have e : priceCheck g [("price", QVal.vstr u)] =
        (match parse_price u with
         | none => false
         | some qp => !pyGt g.price qp) := rfl
    have hp : priceCheck g [("price", QVal.vstr u)] = false := by
      rw [e, hu]
    simp [flight_matches_query, hx, hdp, hap, hp]
  refine ⟨hdep f, harr f, hpr f, ?_, ?_, ?_⟩
  · simp [run_queries_on_db, filterMatches_ok_nil _ hdep flights]
  · simp [run_queries_on_db, filterMatches_ok_nil _ harr flights]
  · simp [run_queries_on_db, filterMatches_ok_nil _ hpr flights]

/-- Witness for C6 (amended) at concrete unparsable filter values. -/
theorem unparsable_string_filters_witness :
    flight_matches_query f0 [("departure_datetime", QVal.vstr "not-a-date")] =
      .ok false ∧
    flight_matches_query f0 [("arrival_datetime", QVal.vstr "not-a-date")] =
      .ok false ∧
    flight_matches_query f0 [("price", QVal.vstr "cheap")] = .ok false ∧
    run_queries_on_db [f0] [[("departure_datetime", QVal.vstr "not-a-date")]] =
      .ok [⟨[("departure_datetime", QVal.vstr "not-a-date")], []⟩] ∧
    run_queries_on_db [f0] [[("arrival_datetime", QVal.vstr "not-a-date")]] =
      .ok [⟨[("arrival_datetime", QVal.vstr "not-a-date")], []⟩] ∧
    run_queries_on_db [f0] [[("price", QVal.vstr "cheap")]] =
      .ok [⟨[("price", QVal.vstr "cheap")], []⟩] :=
  unparsable_string_filters_match_nothing [f0] f0 "not-a-date" "cheap"
    (by decide) (by decide)

/-! ## Claims C7, C8: the field parsers against the spec's strict grammars -/

/-- A digit character is not whitespace. -/
theorem pyIsDigit_not_space (c : Char) (h : pyIsDigit c = true) :
    pyIsSpace c = false := by
  simp only [pyIsDigit, Bool.and_eq_true, decide_eq_true_eq] at h
  simp only [pyIsSpace, Bool.or_eq_false_iff, Bool.and_eq_false_iff,
    decide_eq_false_iff_not]
  omega

/-- No month has more than 31 days. -/
theorem daysInMonth_le_31 (y m : Nat) : daysInMonth y m ≤ 31 := by
  unfold daysInMonth
  split_ifs <;> omega

/-- The spec's strict timestamp grammar (C7): exactly `YYYY-MM-DD HH:MM` with
a 4-digit year, 2-digit month/day/hour/minute, a single space separator, and
field values forming a `datetime`-constructible instant. -/
def specTimestampShape (s : String) : Bool :=
  match s.data with
  | [y1, y2, y3, y4, a1, m1, m2, a2, d1, d2, a3, h1, h2, a4, n1, n2] =>
    decide (pyIsDigit y1 = true ∧ pyIsDigit y2 = true ∧ pyIsDigit y3 = true ∧
      pyIsDigit y4 = true ∧ a1 = '-' ∧ pyIsDigit m1 = true ∧
      pyIsDigit m2 = true ∧ a2 = '-' ∧ pyIsDigit d1 = true ∧
      pyIsDigit d2 = true ∧ a3 = ' ' ∧ pyIsDigit h1 = true ∧
      pyIsDigit h2 = true ∧ a4 = ':' ∧ pyIsDigit n1 = true ∧
      pyIsDigit n2 = true ∧
      1 ≤ 10 * digitVal m1 + digitVal m2 ∧ 10 * digitVal m1 + digitVal m2 ≤ 12 ∧
      1 ≤ 10 * digitVal d1 + digitVal d2 ∧
      10 * digitVal d1 + digitVal d2 ≤
        daysInMonth
          (1000 * digitVal y1 + 100 * digitVal y2 + 10 * digitVal y3 + digitVal y4)
          (10 * digitVal m1 + digitVal m2) ∧
      10 * digitVal h1 + digitVal h2 ≤ 23 ∧
      10 * digitVal n1 + digitVal n2 ≤ 59 ∧
      1 ≤ 1000 * digitVal y1 + 100 * digitVal y2 + 10 * digitVal y3 + digitVal y4)
  | _ => false

/-- C7 counterexample: a one-digit-month string parses to an instant although
it is not in the strict `YYYY-MM-DD HH:MM` shape — `strptime`'s `%m` accepts
one- or two-digit months, so "exactly that format" fails on the code. -/
theorem one_digit_month_parses :
    parse_datetime "2024-5-01 10:00" = some ⟨2024, 5, 1, 10, 0⟩ ∧
    specTimestampShape "2024-5-01 10:00" = false := by decide

/-- C7 (amended): every string in the strict `YYYY-MM-DD HH:MM` shape parses
(the format is sufficient), but it is not necessary: one-digit fields and
whitespace runs are also accepted (see the counterexample); and the parser
never raises, returning `none` on all other inputs. -/
theorem strict_timestamp_parses (s : String)
    (h : specTimestampShape s = true) :
    (parse_datetime s).isSome = true := by
  unfold specTimestampShape at h
  split at h
  next b0 b1 b2 b3 b4 b5 b6 b7 b8 b9 b10 b11 b12 b13 b14 b15 heq =>
    rw [decide_eq_true_eq] at h
    obtain ⟨g0, g1, g2, g3, e1, g4, g5, e2, g6, g7, e3, g8, g9, e4, g10, g11,
      mlo, mhi, dlo, dhi, hhi, nhi, ylo⟩ := h
    have w1 : pyIsSpace ' ' = true := by decide
    have ns : pyIsSpace b11 = false := pyIsDigit_not_space _ g8
    have d31 : 10 * digitVal b8 + digitVal b9 ≤ 31 :=
      le_trans dhi (daysInMonth_le_31 _ _)
    unfold parse_datetime
    rw [heq]
    simp [parse4, parse2or1, parse1, parseLit, parseWs1, Option.bind,
      List.dropWhile_cons, g0, g1, g2, g3, e1, g4, g5, e2, g6, g7, e3, g8, g9,
      e4, g10, g11, mlo, mhi, dlo, dhi, hhi, nhi, ylo, w1, ns, d31]
  next => simp at h

/-- Witness for C7 (amended) at a concrete strictly formatted string. -/
theorem strict_timestamp_parses_witness :
    specTimestampShape "2024-05-01 10:00" = true ∧
    (parse_datetime "2024-05-01 10:00").isSome = true :=
  ⟨by decide, strict_timestamp_parses "2024-05-01 10:00" (by decide)⟩

/-- Dropping a prefix by a predicate that holds nowhere drops nothing. -/
theorem dropWhile_eq_self_of_none (p : Char → Bool) (l : List Char)
    (h : ∀ c ∈ l, p c = false) : l.dropWhile p = l := by
  cases l with
  | nil => rfl
  | cons a t => simp [List.dropWhile_cons, h a (by simp)]

/-- Stripping a string with no whitespace characters leaves it unchanged. -/
theorem pyStrip_eq_self (l : List Char) (h : ∀ c ∈ l, pyIsSpace c = false) :
    pyStrip l = l := by
  unfold pyStrip
  rw [dropWhile_eq_self_of_none _ _ h,
    dropWhile_eq_self_of_none _ _ (fun c hc => h c (by simpa using hc)),
    List.reverse_reverse]

/-- A list containing none of `a` reports `contains` false. -/
theorem contains_eq_false_of_none (l : List Char) (a : Char)
    (h : ∀ c ∈ l, c ≠ a) : l.contains a = false := by
  induction l with
  | nil => rfl
  | cons b t ih =>
    have hb : (a == b) = false := by
      simpa using Ne.symm (h b (by simp))
    simp only [List.contains_cons, hb, Bool.false_or]
    exact ih fun c hc => h c (by simp [hc])

/-- Every element of a `takeWhile` satisfies the predicate. -/
theorem mem_takeWhile_sat (p : Char → Bool) (l : List Char) :
    ∀ c ∈ l.takeWhile p, p c = true := by
  induction l with
  | nil => simp
  | cons a t ih =>
    intro c hc
    rw [List.takeWhile_cons] at hc
    by_cases ha : p a = true
    · rw [if_pos ha] at hc
      rcases List.mem_cons.mp hc with rfl | hc
      · exact ha
      · exact ih c hc
    · rw [if_neg ha] at hc
      simp at hc

/-- `takeWhile` over a list wholly satisfying the predicate is the list. -/
theorem takeWhile_eq_self_of_all (p : Char → Bool) (l : List Char)
    (h : ∀ c ∈ l, p c = true) : l.takeWhile p = l := by
  induction l with
  | nil => rfl
  | cons a t ih =>
    rw [List.takeWhile_cons, if_pos (h a (by simp))]
    rw [ih fun c hc => h c (by simp [hc])]

/-- `dropWhile` over a list wholly satisfying the predicate is empty. -/
theorem dropWhile_eq_nil_of_all (p : Char → Bool) (l : List Char)
    (h : ∀ c ∈ l, p c = true) : l.dropWhile p = [] := by
  induction l with
  | nil => rfl
  | cons a t ih =>
    rw [List.dropWhile_cons, if_pos (h a (by simp))]
    exact ih fun c hc => h c (by simp [hc])

/-- The sign splitter either consumes nothing or one explicit sign character. -/
theorem splitSign_shape (l : List Char) :
    (splitSign l).2 = l ∨
      ∃ c, (c = '-' ∨ c = '+') ∧ l = c :: (splitSign l).2 := by
  cases l with
  | nil => left; rfl
  | cons c r =>
    by_cases h1 : c = '-'
    · right; exact ⟨c, Or.inl h1, by simp [splitSign, h1]⟩
    · by_cases h2 : c = '+'
      · right; exact ⟨c, Or.inr h2, by simp [splitSign, h1, h2]⟩
      · left; simp [splitSign, h1, h2]

/-- A digit cannot case-insensitively equal a lowercase letter. -/
theorem chEqCI_digit_letter (c b : Char) (hc : pyIsDigit c = true)
    (hb : 97 ≤ b.toNat) : chEqCI c b = false := by
  simp only [pyIsDigit, Bool.and_eq_true, decide_eq_true_eq] at hc
  simp only [chEqCI, Bool.or_eq_false_iff, Bool.and_eq_false_iff,
    decide_eq_false_iff_not]
  constructor
  · intro heq; subst heq; omega
  · right; omega

/-- The spec's strict numeric literal (C8): optional sign, then either
digits (an integer) or digits on both sides of a single decimal point. -/
def specStrictNumeric (s : String) : Bool :=
  let core := (splitSign s.data).2
  let ip := core.takeWhile pyIsDigit
  let r := core.dropWhile pyIsDigit
  match splitDot r with
  | some fp => !ip.isEmpty && !fp.isEmpty && fp.all pyIsDigit
  | none => decide (r = []) && !ip.isEmpty

/-- C8 counterexample: `float` accepts scientific notation, so `"1e3"`
parses to a number although it is not a strict integer-or-decimal literal. -/
theorem scientific_notation_parses :
    parse_price "1e3" = some (PyFloat.finite 1000) ∧
    specStrictNumeric "1e3" = false := by decide

/-- `splitDot` succeeds only on a literal leading dot. -/
theorem splitDot_eq_some (r fp : List Char) (h : splitDot r = some fp) :
    r = '.' :: fp := by
  cases r with
  | nil => simp [splitDot] at h
  | cons c t =>
    by_cases hc : c = '.'
    · subst hc
      simp [splitDot] at h
      rw [h]
    · simp [splitDot, hc] at h

/-- Characters of a strict numeric literal are never whitespace. -/
theorem allowedChar_not_space (c : Char)
    (h : pyIsDigit c = true ∨ c = '-' ∨ c = '+' ∨ c = '.') :
    pyIsSpace c = false := by
  rcases h with h | rfl | rfl | rfl
  · exact pyIsDigit_not_space _ h
  · decide
  · decide
  · decide

/-- Characters of a strict numeric literal are never underscores. -/
theorem allowedChar_ne_underscore (c : Char)
    (h : pyIsDigit c = true ∨ c = '-' ∨ c = '+' ∨ c = '.') :
    c ≠ '_' := by
  rcases h with h | rfl | rfl | rfl
  · intro heq; rw [heq] at h; exact absurd h (by decide)
  · decide
  · decide
  · decide

/-- A list whose digit-prefix is non-empty starts with a digit. -/
theorem head_digit_of_takeWhile_ne_nil (l : List Char)
    (h : l.takeWhile pyIsDigit ≠ []) :
    ∃ c rest, l = c :: rest ∧ pyIsDigit c = true := by
  cases l with
  | nil => simp at h
  | cons c rest =>
    refine ⟨c, rest, rfl, ?_⟩
    by_contra hc
    rw [List.takeWhile_cons, if_neg hc] at h
    exact h rfl

/-- `pfloatCore` succeeds whenever, after the sign, the input is a non-empty
digit run optionally followed by a dot and a non-empty digit run. -/
theorem pfloatCore_isSome_of (l : List Char)
    (hhead : ∃ c rest, (splitSign l).2 = c :: rest ∧ pyIsDigit c = true)
    (hshape : (splitSign l).2.dropWhile pyIsDigit = [] ∨
      ∃ fp, splitDot ((splitSign l).2.dropWhile pyIsDigit) = some fp ∧
        fp ≠ [] ∧ ∀ c ∈ fp, pyIsDigit c = true) :
    (pfloatCore l).isSome = true := by
  obtain ⟨c, rest, hcore, hc⟩ := hhead
  have h1 : ciEq (splitSign l).2 "inf".data = false := by
    rw [hcore]
    show (chEqCI c 'i' && ciEq rest ['n', 'f']) = false
    rw [chEqCI_digit_letter c 'i' hc (by decide)]
    rfl
  have h2 : ciEq (splitSign l).2 "infinity".data = false := by
    rw [hcore]
    show (chEqCI c 'i' && ciEq rest ['n', 'f', 'i', 'n', 'i', 't', 'y']) = false
    rw [chEqCI_digit_letter c 'i' hc (by decide)]
    rfl
  have h3 : ciEq (splitSign l).2 "nan".data = false := by
    rw [hcore]
    show (chEqCI c 'n' && ciEq rest ['a', 'n']) = false
    rw [chEqCI_digit_letter c 'n' hc (by decide)]
    rfl
  have hip : (splitSign l).2.takeWhile pyIsDigit ≠ [] := by
    rw [hcore, List.takeWhile_cons, if_pos hc]
    simp
  unfold pfloatCore
  simp only [h1, h2, h3, Bool.or_self, Bool.false_eq_true, if_false]
  rcases hshape with hnil | ⟨fp, hfp, hfpne, hfpd⟩
  · simp only [hnil, splitDot]
    rw [if_neg fun hh => hip hh.1]
    simp
  · simp only [hfp]
    rw [takeWhile_eq_self_of_all _ _ hfpd, dropWhile_eq_nil_of_all _ _ hfpd]
    rw [if_neg fun hh => hfpne hh.2]
    simp

/-- C8 (amended): every strict integer-or-decimal literal with optional sign
parses to a number (sufficiency), but the grammar is not exclusive:
`float` also accepts scientific notation, surrounding whitespace, underscore
digit grouping, and `inf`/`nan` literals (see the counterexample); all other
strings yield a parse failure. -/
theorem strict_numeric_parses (s : String) (h : specStrictNumeric s = true) :
    (parse_price s).isSome = true := by
  simp only [specStrictNumeric] at h
  have hsplit := List.takeWhile_append_dropWhile (p := pyIsDigit)
    (l := (splitSign s.data).2)
  -- classification of the characters, then reduce the float parser
  have main : ∀ hcls : (∀ c ∈ s.data, pyIsDigit c = true ∨ c = '-' ∨ c = '+' ∨ c = '.'),
      (splitSign s.data).2.takeWhile pyIsDigit ≠ [] →
      ((splitSign s.data).2.dropWhile pyIsDigit = [] ∨
        ∃ fp, splitDot ((splitSign s.data).2.dropWhile pyIsDigit) = some fp ∧
          fp ≠ [] ∧ ∀ c ∈ fp, pyIsDigit c = true) →
      (parse_price s).isSome = true := by
    intro hcls hip hshape
    have hstrip : pyStrip s.data = s.data :=
      pyStrip_eq_self _ fun c hc => allowedChar_not_space c (hcls c hc)
    have hcont : s.data.contains '_' = false :=
      contains_eq_false_of_none _ _ fun c hc =>
        allowedChar_ne_underscore c (hcls c hc)
    show (pfloat s).isSome = true
    unfold pfloat
    simp only [hstrip, hcont, Bool.false_eq_true, if_false]
    exact pfloatCore_isSome_of s.data
      (head_digit_of_takeWhile_ne_nil _ hip) hshape
  -- a membership fact usable in both branches: characters of the part after
  -- the optional sign are characters of the whole string
  have hmem : ∀ c, c ∈ (splitSign s.data).2 → c ∈ s.data := by
    rcases splitSign_shape s.data with hid | ⟨c0, -, hl⟩
    · intro c hc; rw [← hid]; exact hc
    · intro c hc; rw [hl]; exact List.mem_cons_of_mem _ hc
  split at h
  next fp hfp =>
    simp only [Bool.and_eq_true, Bool.not_eq_true', List.isEmpty_eq_false,
      List.all_eq_true] at h
    obtain ⟨⟨hipne, hfpne⟩, hfpd⟩ := h
    have hfpd' : ∀ c ∈ fp, pyIsDigit c = true := fun c hc => hfpd c hc
    have hr : (splitSign s.data).2.dropWhile pyIsDigit = '.' :: fp :=
      splitDot_eq_some _ _ hfp
    refine main ?_ hipne (Or.inr ⟨fp, hfp, hfpne, hfpd'⟩)
    intro c hc
    rcases splitSign_shape s.data with hid | ⟨c0, hc0, hl⟩
    · rw [← hid] at hc
      rw [← hsplit, hr] at hc
      rcases List.mem_append.mp hc with hc | hc
      · exact Or.inl (mem_takeWhile_sat _ _ c hc)
      · rcases List.mem_cons.mp hc with rfl | hc
        · exact Or.inr (Or.inr (Or.inr rfl))
        · exact Or.inl (hfpd' c hc)
    · rw [hl] at hc
      rcases List.mem_cons.mp hc with rfl | hc
      · rcases hc0 with rfl | rfl
        · exact Or.inr (Or.inl rfl)
        · exact Or.inr (Or.inr (Or.inl rfl))
      · rw [← hsplit, hr] at hc
        rcases List.mem_append.mp hc with hc | hc
        · exact Or.inl (mem_takeWhile_sat _ _ c hc)
        · rcases List.mem_cons.mp hc with rfl | hc
          · exact Or.inr (Or.inr (Or.inr rfl))
          · exact Or.inl (hfpd' c hc)
  next hfp =>
    simp only [Bool.and_eq_true, decide_eq_true_eq, Bool.not_eq_true',
      List.isEmpty_eq_false] at h
    obtain ⟨hr, hipne⟩ := h
    refine main ?_ hipne (Or.inl hr)
    intro c hc
    rcases splitSign_shape s.data with hid | ⟨c0, hc0, hl⟩
    · rw [← hid] at hc
      rw [← hsplit, hr, List.append_nil] at hc
      exact Or.inl (mem_takeWhile_sat _ _ c hc)
    · rw [hl] at hc
      rcases List.mem_cons.mp hc with rfl | hc
      · rcases hc0 with rfl | rfl
        · exact Or.inr (Or.inl rfl)
        · exact Or.inr (Or.inr (Or.inl rfl))
      · rw [← hsplit, hr, List.append_nil] at hc
        exact Or.inl (mem_takeWhile_sat _ _ c hc)

/-- Witness for C8 (amended) at a concrete decimal literal. -/
theorem strict_numeric_parses_witness :
    specStrictNumeric "12.5" = true ∧ (parse_price "12.5").isSome = true :=
  ⟨by decide, strict_numeric_parses "12.5" (by decide)⟩
